import Mathlib

/-!
Verification of the emotion-art generator (`src/app.py`) against its
natural-language specification.  The Python source is shallowly embedded:
pure functions become Lean functions over `ℚ`/`ℤ`/`ℕ`, the global
`random` module becomes an explicit state machine threaded through the
drawing code, and the PIL image is modelled as the deterministic sequence
of drawing commands issued to it.
-/

namespace EmotionArt

/-- The word → emotion-labels lexicon, transcribed from `EMOTION_LEXICON`
in `src/app.py` (lines 16–75). -/
def EMOTION_LEXICON : List (String × List String) := [
  ("happy", ["joy", "trust"]),
  ("joy", ["joy"]),
  ("love", ["joy", "trust"]),
  ("smile", ["joy"]),
  ("delight", ["joy"]),
  ("peace", ["joy", "trust"]),
  ("confidence", ["trust", "joy"]),
  ("proud", ["joy"]),
  ("grateful", ["joy", "trust"]),
  ("excited", ["joy", "surprise"]),
  ("sad", ["sadness"]),
  ("lonely", ["sadness"]),
  ("cry", ["sadness"]),
  ("loss", ["sadness"]),
  ("regret", ["sadness"]),
  ("tired", ["sadness"]),
  ("hurt", ["sadness"]),
  ("blue", ["sadness"]),
  ("angry", ["anger"]),
  ("rage", ["anger"]),
  ("hate", ["anger"]),
  ("annoyed", ["anger"]),
  ("furious", ["anger"]),
  ("upset", ["anger", "sadness"]),
  ("fear", ["fear"]),
  ("afraid", ["fear"]),
  ("worry", ["fear"]),
  ("anxious", ["fear"]),
  ("scared", ["fear"]),
  ("panic", ["fear"]),
  ("surprise", ["surprise"]),
  ("wow", ["surprise", "joy"]),
  ("shocked", ["surprise", "fear"]),
  ("unexpected", ["surprise"]),
  ("trust", ["trust"]),
  ("reliable", ["trust"]),
  ("honest", ["trust"]),
  ("secure", ["trust"]),
  ("safe", ["trust"]),
  ("faith", ["trust"]),
  ("disgust", ["disgust"]),
  ("gross", ["disgust"]),
  ("nasty", ["disgust"]),
  ("dirty", ["disgust"]),
  ("toxic", ["disgust", "anger"])]

/-- The fixed emotion label list `EMOTIONS` (`src/app.py` line 87), in
source order. -/
def EMOTIONS : List String :=
  ["joy", "sadness", "anger", "fear", "surprise", "trust", "disgust"]

/-- Dict lookup `EMOTION_LEXICON.get(tok)` / `tok in EMOTION_LEXICON`. -/
def lexLookup (w : String) : Option (List String) :=
  (EMOTION_LEXICON.find? (fun p => p.1 == w)).map (fun p => p.2)

/-- Characters Python's `str.split()` splits on (ASCII whitespace). -/
def pyIsSpace (c : Char) : Bool :=
  c = ' ' || c = '\t' || c = '\n' || c = '\r' || c.toNat = 11 || c.toNat = 12

/-- The punctuation characters stripped from each token:
`".,!?;:()[]\"'"` in `src/app.py` line 90. -/
def STRIP_CHARS : List Char :=
  ['.', ',', '!', '?', ';', ':', '(', ')', '[', ']', '"', Char.ofNat 39]

/-- Python `str.split()`: split on runs of whitespace, dropping empty
pieces.  `acc` holds the current (reversed) in-progress token. -/
def splitWSAux : List Char → List Char → List (List Char)
  | [], acc => if acc.isEmpty then [] else [acc.reverse]
  | c :: rest, acc =>
      if pyIsSpace c then
        if acc.isEmpty then splitWSAux rest []
        else acc.reverse :: splitWSAux rest []
      else splitWSAux rest (c :: acc)

/-- Python `tok.strip(chars)`: drop leading and trailing characters that
belong to `chars`. -/
def pyStrip (chars : List Char) (cs : List Char) : List Char :=
  ((cs.dropWhile (fun c => c ∈ chars)).reverse.dropWhile
    (fun c => c ∈ chars)).reverse

/-- Token list of `text`: `[t.strip(".,!?;:()[]\"'").lower() for t in
text.split()]` (`src/app.py` line 90). -/
def tokenize (text : String) : List String :=
  (splitWSAux text.data []).map
    (fun t => String.mk ((pyStrip STRIP_CHARS t).map Char.toLower))

/-- `counts[e]` after the scan loop of `score_emotions`: each token found
in the lexicon contributes `es.count e` occurrences of label `e`. -/
def countsOf : List String → String → ℕ
  | [], _ => 0
  | tok :: rest, e =>
      (match lexLookup tok with
       | some es => es.count e
       | none => 0) + countsOf rest e

/-- `total_hits` after the scan loop: each token found in the lexicon
contributes one hit per associated emotion label. -/
def totalHits : List String → ℕ
  | [] => 0
  | tok :: rest =>
      (match lexLookup tok with
       | some es => es.length
       | none => 0) + totalHits rest

/-- `score_emotions(text)` (`src/app.py` lines 89–101): returns the dict
`{e: counts[e] / max(1, total_hits) for e in EMOTIONS}` (overwritten with
all zeros when `total_hits == 0`) together with `total_hits`. -/
def score_emotions (text : String) : List (String × ℚ) × ℕ :=
  let tokens := tokenize text
  let th := totalHits tokens
  let scores := EMOTIONS.map
    (fun e => (e, (countsOf tokens e : ℚ) / ((max 1 th : ℕ) : ℚ)))
  if th = 0 then (EMOTIONS.map (fun e => (e, (0 : ℚ))), th)
  else (scores, th)

/-! ### The art generator (`generate_art`, `src/app.py` lines 103–153)

The PIL canvas is modelled as the sequence of drawing commands issued to
it (PIL rasterization is a deterministic function of that sequence), and
Python's global `random` module as an explicit state machine `RNGImpl`:
a state type with deterministic `seed` / `randint` / `uniform` /
`random` transition functions, threaded through the code in the order
the source consumes randomness.  `math.cos` / `math.sin` are abstracted
as parameters `cosF` / `sinF`. -/

/-- An RGB triplet. -/
abbrev RGB : Type := ℕ × ℕ × ℕ

/-- The fixed neutral palette `PALETTES["neutral"]`. -/
def NEUTRAL_PALETTE : RGB × RGB × RGB :=
  ((220, 220, 220), (200, 200, 200), (180, 180, 180))

/-- `PALETTES` (`src/app.py` lines 77–86): three RGB entries per key. -/
def PALETTES : List (String × (RGB × RGB × RGB)) := [
  ("joy", ((255, 214, 102), (255, 159, 28), (255, 111, 105))),
  ("sadness", ((102, 153, 255), (64, 105, 225), (35, 62, 140))),
  ("anger", ((255, 71, 87), (255, 99, 72), (199, 0, 57))),
  ("fear", ((155, 89, 182), (52, 31, 151), (41, 128, 185))),
  ("surprise", ((255, 221, 89), (255, 195, 0), (255, 87, 51))),
  ("trust", ((46, 204, 113), (39, 174, 96), (23, 165, 137))),
  ("disgust", ((143, 188, 143), (85, 107, 47), (0, 128, 0))),
  ("neutral", NEUTRAL_PALETTE)]

/-- `PALETTES.get(emotion, PALETTES["neutral"])`. -/
def palGet (emotion : String) : RGB × RGB × RGB :=
  ((PALETTES.find? (fun p => p.1 == emotion)).map
    (fun p => p.2)).getD NEUTRAL_PALETTE

/-- `lerp(a, b, t)` (`src/app.py` lines 103–104). -/
def lerp (a b t : ℚ) : ℚ := a + (b - a) * t

/-- Python `int(x)` on a float: truncation toward zero. -/
def pyTrunc (q : ℚ) : ℤ := if 0 ≤ q then ⌊q⌋ else ⌈q⌉

/-- `pick_color(emotion, intensity)` (`src/app.py` lines 106–113). -/
def pick_color (emotion : String) (intensity : ℚ) : RGB :=
  let palette := palGet emotion
  if intensity < 0.33 then palette.1
  else if intensity < 0.66 then palette.2.1
  else palette.2.2

/-- Python's `random` module modelled as a deterministic state machine:
`random.seed` builds a state from the seed and `randint` / `uniform` /
`random` deterministically return a value and the successor state. -/
structure RNGImpl (S : Type) where
  seedF : ℤ → S
  randintF : S → ℤ → ℤ → ℤ × S
  uniformF : S → ℚ → ℚ → ℚ × S
  randomF : S → ℚ × S

/-- One drawing command issued to the PIL canvas: `draw.ellipse`,
`draw.polygon` or `draw.line`, with its RGBA fill (and stroke width for
lines). -/
inductive DrawCmd : Type where
  | ellipse (x0 y0 x1 y1 : ℤ) (color : RGB) (alpha : ℤ)
  | polygon (pts : List (ℤ × ℤ)) (color : RGB) (alpha : ℤ)
  | line (x0 y0 x1 y1 : ℤ) (color : RGB) (alpha : ℤ) (width : ℤ)
deriving DecidableEq

/-- The ellipse drawn for round emotions:
`draw.ellipse((cx - size, cy - size, cx + size, cy + size), ...)`. -/
def circleCmd (cx cy size : ℤ) (color : RGB) (alpha : ℤ) : DrawCmd :=
  DrawCmd.ellipse (cx - size) (cy - size) (cx + size) (cy + size)
    color alpha

/-- The triangle drawn for sharp emotions: 3 points at the fixed angular
offsets `[0, 2.1, 4.2]`, each at distance `size` from the center
(`pts = [(cx + int(size*cos(t)), cy + int(size*sin(t))) for t in ...]`). -/
def triCmd (cosF sinF : ℚ → ℚ) (cx cy size : ℤ) (color : RGB)
    (alpha : ℤ) : DrawCmd :=
  DrawCmd.polygon
    (([0, 2.1, 4.2] : List ℚ).map
      (fun t => (cx + pyTrunc ((size : ℚ) * cosF t),
                 cy + pyTrunc ((size : ℚ) * sinF t))))
    color alpha

/-- The stroke drawn for stroke emotions:
`draw.line((cx, cy, x2, y2), ..., width=max(1, size // 10))`. -/
def lineCmd (cx cy x2 y2 size : ℤ) (color : RGB) (alpha : ℤ) : DrawCmd :=
  DrawCmd.line cx cy x2 y2 color alpha (max 1 (Int.fdiv size 10))

/-- Which of the three `if e in [...]` branches of the inner drawing loop
(`src/app.py` lines 140–151) the emotion `e` selects, if any. -/
inductive ShapeKind : Type where
  | round
  | sharp
  | stroke
deriving DecidableEq

/-- The branch selected by the `if e in ["joy","trust","surprise"] /
elif e in ["anger","disgust"] / elif e in ["sadness","fear"]` chain. -/
def shapeKindOf (e : String) : Option ShapeKind :=
  if e ∈ (["joy", "trust", "surprise"] : List String) then
    some ShapeKind.round
  else if e ∈ (["anger", "disgust"] : List String) then
    some ShapeKind.sharp
  else if e ∈ (["sadness", "fear"] : List String) then
    some ShapeKind.stroke
  else none

/-- One iteration of the inner drawing loop (`src/app.py` lines
134–151): draws position, size, color and alpha, then issues the shape
command selected by the emotion (none if the emotion matches no branch,
which never happens for the seven `EMOTIONS`). -/
def drawOne {S : Type} (R : RNGImpl S) (cosF sinF : ℚ → ℚ) (w h : ℤ)
    (e : String) (frac : ℚ) (s : S) : Option DrawCmd × S :=
  let rx := R.randintF s 0 w
  let ry := R.randintF rx.2 0 h
  let cx := rx.1
  let cy := ry.1
  let ru := R.uniformF ry.2 0.6 1.4
  let size := pyTrunc (lerp 8 120 frac * ru.1)
  let ri := R.randomF ru.2
  let color := pick_color e ri.1
  let alpha := pyTrunc (lerp 60 185 frac)
  match shapeKindOf e with
  | some ShapeKind.round => (some (circleCmd cx cy size color alpha), ri.2)
  | some ShapeKind.sharp =>
      (some (triCmd cosF sinF cx cy size color alpha), ri.2)
  | some ShapeKind.stroke =>
      let rdx := R.randintF ri.2 (-size * 2) (size * 2)
      let rdy := R.randintF rdx.2 (-size * 2) (size * 2)
      (some (lineCmd cx cy (cx + rdx.1) (cy + rdy.1) size color alpha),
        rdy.2)
  | none => (none, ri.2)

/-- `count = max(1, int(density * frac))` (`src/app.py` line 133): the
number of inner-loop iterations for an emotion with fraction `frac`. -/
def shapeCount (density : ℕ) (frac : ℚ) : ℕ :=
  max 1 (pyTrunc ((density : ℚ) * frac)).toNat

/-- `for _ in range(count)`: run `count` iterations of the inner drawing
loop, collecting the issued commands. -/
def drawLoop {S : Type} (R : RNGImpl S) (cosF sinF : ℚ → ℚ) (w h : ℤ)
    (e : String) (frac : ℚ) : ℕ → S → List DrawCmd × S
  | 0, s => ([], s)
  | Nat.succ n, s =>
      let r := drawOne R cosF sinF w h e frac s
      let rest := drawLoop R cosF sinF w h e frac n r.2
      (r.1.elim rest.1 (fun c => c :: rest.1), rest.2)

/-- All commands drawn for one emotion of the `for e, frac in
norm.items()` loop (`src/app.py` lines 132–151). -/
def emotionSegment {S : Type} (R : RNGImpl S) (cosF sinF : ℚ → ℚ)
    (w h : ℤ) (density : ℕ) (e : String) (frac : ℚ) (s : S) :
    List DrawCmd × S :=
  drawLoop R cosF sinF w h e frac (shapeCount density frac) s

/-- The `for e, frac in norm.items()` loop over the emotion/fraction
pairs, keeping each emotion's commands tagged by the emotion. -/
def artLoop {S : Type} (R : RNGImpl S) (cosF sinF : ℚ → ℚ) (w h : ℤ)
    (density : ℕ) : List (String × ℚ) → S →
    List (String × List DrawCmd) × S
  | [], s => ([], s)
  | item :: rest, s =>
      let seg := emotionSegment R cosF sinF w h density item.1 item.2 s
      let tail := artLoop R cosF sinF w h density rest seg.2
      ((item.1, seg.1) :: tail.1, tail.2)

/-- The neutral-composition loop (`src/app.py` lines 123–127): one soft
translucent circle per iteration, colored by one of the three neutral
palette entries (index drawn by `random.randint(0, 2)`). -/
def neutralLoop {S : Type} (R : RNGImpl S) (w h : ℤ) :
    ℕ → S → List DrawCmd × S
  | 0, s => ([], s)
  | Nat.succ n, s =>
      let rx := R.randintF s 0 w
      let ry := R.randintF rx.2 0 h
      let rr := R.randintF ry.2 6 40
      let rc := R.randintF rr.2 0 2
      let col := if rc.1 = 0 then NEUTRAL_PALETTE.1
        else if rc.1 = 1 then NEUTRAL_PALETTE.2.1
        else NEUTRAL_PALETTE.2.2
      let rest := neutralLoop R w h n rc.2
      (DrawCmd.ellipse (rx.1 - rr.1) (ry.1 - rr.1) (rx.1 + rr.1)
        (ry.1 + rr.1) col 110 :: rest.1, rest.2)

/-- Python dict access `d[e]` for a dict holding every key it is asked
for (as the score dicts over `EMOTIONS` do). -/
def dictGet (d : List (String × ℚ)) (e : String) : ℚ :=
  ((d.find? (fun p => p.1 == e)).map (fun p => p.2)).getD 0

/-- `sum(emotion_scores.values())`. -/
def dictValuesSum (d : List (String × ℚ)) : ℚ :=
  (d.map (fun p => p.2)).sum

/-- `norm[e]`: `emotion_scores[e] / total if total > 0 else 0.0`
(`src/app.py` line 130). -/
def normFrac (d : List (String × ℚ)) (e : String) : ℚ :=
  if 0 < dictValuesSum d then dictGet d e / dictValuesSum d else 0

/-- The tagged command segments the non-neutral branch of `generate_art`
issues, one per emotion of `EMOTIONS`, starting from the freshly seeded
generator state. -/
def taggedSegments {S : Type} (R : RNGImpl S) (cosF sinF : ℚ → ℚ)
    (w h : ℤ) (scores : List (String × ℚ)) (seed : ℤ) (density : ℕ) :
    List (String × List DrawCmd) :=
  (artLoop R cosF sinF w h density
    (EMOTIONS.map (fun e => (e, normFrac scores e)))
    (R.seedF seed)).1

/-- The number of shapes the non-neutral branch draws for emotion `e`. -/
def shapesFor {S : Type} (R : RNGImpl S) (cosF sinF : ℚ → ℚ)
    (w h : ℤ) (scores : List (String × ℚ)) (seed : ℤ) (density : ℕ)
    (e : String) : ℕ :=
  (taggedSegments R cosF sinF w h scores seed density).foldr
    (fun p acc => if p.1 = e then p.2.length + acc else acc) 0

/-- The produced image, modelled as canvas metadata plus the drawing
command sequence and the Gaussian blur radius applied at the end
(`none` when the `blur > 0` guard fails and no filter runs). -/
structure ArtImage : Type where
  width : ℤ
  height : ℤ
  background : RGB
  cmds : List DrawCmd
  blurApplied : Option ℕ
deriving DecidableEq

/-- `generate_art(width, height, emotion_scores, seed, density, blur)`
(`src/app.py` lines 115–153).  The ambient global generator state `g`
is the state of Python's `random` module before the call; the first
statement `random.seed(seed)` replaces it, so `g` is never consumed. -/
def generate_art {S : Type} (R : RNGImpl S) (cosF sinF : ℚ → ℚ) (g : S)
    (width height : ℤ) (emotion_scores : List (String × ℚ)) (seed : ℤ)
    (density : ℕ) (blur : ℕ) : ArtImage :=
  let s := R.seedF seed
  let total := dictValuesSum emotion_scores
  if total = 0 then
    { width := width, height := height, background := (250, 250, 250),
      cmds := (neutralLoop R width height (max 80 (density / 4)) s).1,
      blurApplied := if 0 < blur then some blur else none }
  else
    { width := width, height := height, background := (250, 250, 250),
      cmds := (taggedSegments R cosF sinF width height emotion_scores
        seed density).foldr (fun p acc => p.2 ++ acc) [],
      blurApplied := if 0 < blur then some blur else none }

/-- A concrete instance of `RNGImpl` used to instantiate the universally
quantified theorems at concrete inputs: `randint`/`uniform` return the
lower bound, `random` returns 0, and the state counts the draws. -/
def trivRNG : RNGImpl ℕ where
  seedF := fun _ => 0
  randintF := fun s a _ => (a, s + 1)
  uniformF := fun s a _ => (a, s + 1)
  randomF := fun s => (0, s + 1)

/-- Concrete stand-ins for `math.cos` / `math.sin` used to instantiate
the universally quantified theorems at concrete inputs. -/
def cosZ : ℚ → ℚ := fun _ => 0

/-- See `cosZ`. -/
def sinZ : ℚ → ℚ := fun _ => 0

/-- The structural shape property each branch of the inner drawing loop
guarantees for the command it issues. -/
def KindMatches (cosF sinF : ℚ → ℚ) : ShapeKind → DrawCmd → Prop
  | ShapeKind.round, cmd =>
      ∃ cx cy size col a, cmd = circleCmd cx cy size col a
  | ShapeKind.sharp, cmd =>
      ∃ cx cy size col a, cmd = triCmd cosF sinF cx cy size col a
  | ShapeKind.stroke, cmd =>
      ∃ cx cy x2 y2 size col a, cmd = lineCmd cx cy x2 y2 size col a

/-! ### Concrete score dictionaries used to instantiate the theorems -/

/-- A score dict with a single nonzero emotion (joy). -/
def wScores : List (String × ℚ) :=
  [("joy", 1), ("sadness", 0), ("anger", 0), ("fear", 0),
   ("surprise", 0), ("trust", 0), ("disgust", 0)]

/-- A score dict splitting the mass evenly between joy and trust. -/
def cScores : List (String × ℚ) :=
  [("joy", 1), ("sadness", 0), ("anger", 0), ("fear", 0),
   ("surprise", 0), ("trust", 1), ("disgust", 0)]

/-- A score dict with a single nonzero emotion (sadness). -/
def sScores : List (String × ℚ) :=
  [("joy", 0), ("sadness", 1), ("anger", 0), ("fear", 0),
   ("surprise", 0), ("trust", 0), ("disgust", 0)]

/-- The all-zero score dict (`score_emotions` output on lexicon-free
text). -/
def zScores : List (String × ℚ) :=
  [("joy", 0), ("sadness", 0), ("anger", 0), ("fear", 0),
   ("surprise", 0), ("trust", 0), ("disgust", 0)]

/-- The segment of commands the non-neutral branch draws for joy with
the concrete generator `trivRNG`, scores `wScores`, density 1, at the
state left by `random.seed(42)`. -/
def wSeg : List DrawCmd :=
  (drawLoop trivRNG cosZ sinZ 100 100 "joy" (normFrac wScores "joy")
    (shapeCount 1 (normFrac wScores "joy")) (trivRNG.seedF 42)).1

/-- The first command of `wSeg`, written out explicitly. -/
def wCmd : DrawCmd :=
  circleCmd 0 0 (pyTrunc (lerp 8 120 (normFrac wScores "joy") * 0.6))
    (pick_color "joy" 0) (pyTrunc (lerp 60 185 (normFrac wScores "joy")))

/-! ### Claim C9: the palette hasher of the flowfield front-end -/

/-- Modelled from the spec: `hash_to_palette` belongs to the flowfield
front-end, which is not among the repository's source files (only the
emotion-art app `src/app.py` is present).  Spec §4.1 prescribes a
fixed-length 256-bit digest of the UTF-8 text rendered as 64 hex
characters; the cryptographic digest function itself is modelled here
as a concrete deterministic 32-byte mix of the text bytes (the
properties proved below use only that it is a pure function returning
bytes). -/
def specDigest (text : String) : List ℕ :=
  (List.range 32).map
    (fun i => (text.data.foldl (fun a c => a * 131 + c.toNat) i) % 256)

/-- Modelled from the spec: empty or whitespace-only input is
substituted with a fixed non-empty default string before hashing. -/
def hash_input (text : String) : String :=
  if text.trim = "" then "flowfield" else text

/-- Modelled from the spec (§4.1): palette entry `i` takes the digest
bytes at offsets `(i*3) mod 32`, `(i*3+1) mod 32`, `(i*3+2) mod 32`
(the byte form of the spec's 2-hex-digit slices at
`(i*6) mod 64, (i*6+2) mod 64, (i*6+4) mod 64`) as R, G, B. -/
def hash_to_palette (text : String) (n : ℕ) : List RGB :=
  let d := specDigest (hash_input text)
  (List.range n).map (fun i =>
    (d.getD ((i * 3) % 32) 0, d.getD ((i * 3 + 1) % 32) 0,
     d.getD ((i * 3 + 2) % 32) 0))

/-! ### Theorems -/

/-! ### Lemmas about the scorer -/

theorem sum_map_add {α : Type} (l : List α) (f g : α → ℕ) :
    (l.map (fun x => f x + g x)).sum = (l.map f).sum + (l.map g).sum := by
  induction l with
  | nil => simp
  | cons a t ih => simp [ih]; ring

theorem sum_map_div {α : Type} (l : List α) (f : α → ℚ) (c : ℚ) :
    (l.map (fun x => f x / c)).sum = (l.map f).sum / c := by
  induction l with
  | nil => simp
  | cons a t ih => simp [ih, add_div]

/-- Every lexicon entry's label list is made of labels of `EMOTIONS`, so
counting each of the seven labels in it accounts for its whole length. -/
theorem lexicon_entry_sum :
    ∀ p ∈ EMOTION_LEXICON,
      (EMOTIONS.map (fun e => p.2.count e)).sum = p.2.length := by
  decide

theorem lexLookup_eq_some {w : String} {es : List String}
    (h : lexLookup w = some es) : ∃ p ∈ EMOTION_LEXICON, p.2 = es := by
  unfold lexLookup at h
  rcases Option.map_eq_some'.mp h with ⟨p, hp, hpe⟩
  exact ⟨p, List.mem_of_find?_eq_some hp, hpe⟩

/-- Summing the per-emotion hit counters over the seven labels recovers
`total_hits`. -/
theorem counts_sum (tokens : List String) :
    (EMOTIONS.map (fun e => countsOf tokens e)).sum = totalHits tokens := by
  induction tokens with
  | nil => simp [countsOf, totalHits]
  | cons tok rest ih =>
      show (EMOTIONS.map (fun e =>
        (match lexLookup tok with
         | some es => es.count e
         | none => 0) + countsOf rest e)).sum = _
      rw [sum_map_add]
      rw [ih]
      rcases h : lexLookup tok with _ | es
      · simp [totalHits, h]
      · rcases lexLookup_eq_some h with ⟨p, hp, hpe⟩
        have := lexicon_entry_sum p hp
        rw [hpe] at this
        simp only [totalHits, h, this]

theorem counts_le (tokens : List String) (e : String) :
    countsOf tokens e ≤ totalHits tokens := by
  induction tokens with
  | nil => simp [countsOf, totalHits]
  | cons tok rest ih =>
      show (match lexLookup tok with
            | some es => es.count e
            | none => 0) + countsOf rest e ≤ _
      rcases h : lexLookup tok with _ | es
      · simpa [totalHits, h] using ih
      · have : es.count e ≤ es.length := List.count_le_length e es
        simp only [totalHits, h]
        omega

theorem score_emotions_snd (text : String) :
    (score_emotions text).2 = totalHits (tokenize text) := by
  unfold score_emotions
  by_cases hc : totalHits (tokenize text) = 0 <;> simp [hc]

theorem score_emotions_fst (text : String)
    (h : totalHits (tokenize text) ≠ 0) :
    (score_emotions text).1 = EMOTIONS.map
      (fun e => (e, (countsOf (tokenize text) e : ℚ) /
        ((max 1 (totalHits (tokenize text)) : ℕ) : ℚ))) := by
  unfold score_emotions
  simp [h]

theorem totalHits_eq_zero (l : List String)
    (h : ∀ tok ∈ l, lexLookup tok = none) : totalHits l = 0 := by
  induction l with
  | nil => simp [totalHits]
  | cons tok rest ih =>
      have h1 := h tok (List.mem_cons_self tok rest)
      have h2 := ih (fun t ht => h t (List.mem_cons_of_mem tok ht))
      simp [totalHits, h1, h2]

/-- Claim C1: on the input text `happy happy sad`, `score_emotions`
returns `total_hits = 5` and scores joy = 2/5, trust = 2/5,
sadness = 1/5, and 0 for the remaining four emotions: each `happy`
contributes one hit to joy and one to trust, `sad` one hit to
sadness. -/
theorem claim_C1 : score_emotions "happy happy sad" =
    ([("joy", 2/5), ("sadness", 1/5), ("anger", 0), ("fear", 0),
      ("surprise", 0), ("trust", 2/5), ("disgust", 0)], 5) := by
  have h5 : totalHits (tokenize "happy happy sad") = 5 := rfl
  refine Prod.ext ?_ (by rw [score_emotions_snd, h5])
  rw [score_emotions_fst "happy happy sad" (by rw [h5]; omega), h5]
  norm_num [EMOTIONS,
    show countsOf (tokenize "happy happy sad") "joy" = 2 from rfl,
    show countsOf (tokenize "happy happy sad") "sadness" = 1 from rfl,
    show countsOf (tokenize "happy happy sad") "anger" = 0 from rfl,
    show countsOf (tokenize "happy happy sad") "fear" = 0 from rfl,
    show countsOf (tokenize "happy happy sad") "surprise" = 0 from rfl,
    show countsOf (tokenize "happy happy sad") "trust" = 2 from rfl,
    show countsOf (tokenize "happy happy sad") "disgust" = 0 from rfl]

/-- Claim C2: for every input text with at least one lexicon hit,
`score_emotions` returns a mapping over exactly the 7 fixed emotion
labels, every value lies in [0, 1], and the values sum to 1 (exactly, in
the rational model of the arithmetic). -/
theorem claim_C2 (text : String) (h : 1 ≤ (score_emotions text).2) :
    ((score_emotions text).1.map Prod.fst = EMOTIONS ∧
      EMOTIONS.length = 7) ∧
    (∀ p ∈ (score_emotions text).1, 0 ≤ p.2 ∧ p.2 ≤ 1) ∧
    ((score_emotions text).1.map Prod.snd).sum = 1 := by
  rw [score_emotions_snd] at h
  have hth : totalHits (tokenize text) ≠ 0 := by omega
  have hmax : max 1 (totalHits (tokenize text)) =
      totalHits (tokenize text) := by omega
  rw [score_emotions_fst text hth, hmax]
  have hpos : (0 : ℚ) < ((totalHits (tokenize text) : ℕ) : ℚ) := by
    exact_mod_cast Nat.pos_of_ne_zero hth
  refine ⟨⟨?_, by simp [EMOTIONS]⟩, ?_, ?_⟩
  · rfl
  · intro p hp
    rcases List.mem_map.mp hp with ⟨e, _, rfl⟩
    constructor
    · exact div_nonneg (by positivity) (le_of_lt hpos)
    · rw [div_le_one hpos]
      exact_mod_cast counts_le (tokenize text) e
  · rw [List.map_map]
    have hcomp : (Prod.snd ∘ fun e => (e, (countsOf (tokenize text) e : ℚ) /
        ((totalHits (tokenize text) : ℕ) : ℚ))) =
        fun e => (countsOf (tokenize text) e : ℚ) /
          ((totalHits (tokenize text) : ℕ) : ℚ) := rfl
    rw [hcomp, sum_map_div]
    have hsum : ((EMOTIONS.map
        (fun e => (countsOf (tokenize text) e : ℚ))).sum) =
        ((totalHits (tokenize text) : ℕ) : ℚ) := by
      have := counts_sum (tokenize text)
      calc (EMOTIONS.map (fun e => (countsOf (tokenize text) e : ℚ))).sum
          = ((EMOTIONS.map (fun e => countsOf (tokenize text) e)).sum : ℕ) := by
            rw [Nat.cast_list_sum, List.map_map]; rfl
        _ = _ := by rw [this]
    rw [hsum, div_self (ne_of_gt hpos)]

/-- Concrete instance of C2 at the text `happy`. -/
theorem claim_C2_witness :
    1 ≤ (score_emotions "happy").2 ∧
    (((score_emotions "happy").1.map Prod.fst = EMOTIONS ∧
        EMOTIONS.length = 7) ∧
      (∀ p ∈ (score_emotions "happy").1, 0 ≤ p.2 ∧ p.2 ≤ 1) ∧
      ((score_emotions "happy").1.map Prod.snd).sum = 1) := by
  have hh : 1 ≤ (score_emotions "happy").2 := by
    rw [score_emotions_snd]
    rw [show totalHits (tokenize "happy") = 2 from rfl]
    omega
  exact ⟨hh, claim_C2 "happy" hh⟩

/-- Claim C3: when no (stripped, lowercased, whitespace-split) token of
the text is a lexicon key, `score_emotions` returns 0.0 for each of the
7 emotions and `total_hits = 0`. -/
theorem claim_C3 (text : String)
    (h : ∀ tok ∈ tokenize text, lexLookup tok = none) :
    (score_emotions text).1 = EMOTIONS.map (fun e => (e, (0 : ℚ))) ∧
    (score_emotions text).2 = 0 := by
  have hz := totalHits_eq_zero (tokenize text) h
  unfold score_emotions
  simp [hz]

/-- Concrete instance of C3 at the text `nothing here at all`. -/
theorem claim_C3_witness :
    (∀ tok ∈ tokenize "nothing here at all", lexLookup tok = none) ∧
    ((score_emotions "nothing here at all").1 =
        EMOTIONS.map (fun e => (e, (0 : ℚ))) ∧
      (score_emotions "nothing here at all").2 = 0) := by
  have hh : ∀ tok ∈ tokenize "nothing here at all",
      lexLookup tok = none := by decide
  exact ⟨hh, claim_C3 "nothing here at all" hh⟩

/-! ### Lemmas about the drawing loops -/

theorem shapeKindOf_isSome : ∀ e ∈ EMOTIONS, (shapeKindOf e).isSome := by
  decide

theorem drawOne_isSome {S : Type} (R : RNGImpl S) (cosF sinF : ℚ → ℚ)
    (w h : ℤ) {e : String} (he : e ∈ EMOTIONS) (frac : ℚ) (s : S) :
    ((drawOne R cosF sinF w h e frac s).1).isSome := by
  have hk := shapeKindOf_isSome e he
  rcases hkk : shapeKindOf e with _ | k
  · rw [hkk] at hk; simp at hk
  · cases k <;> simp [drawOne, hkk]

theorem drawLoop_length {S : Type} (R : RNGImpl S) (cosF sinF : ℚ → ℚ)
    (w h : ℤ) {e : String} (he : e ∈ EMOTIONS) (frac : ℚ) :
    ∀ (n : ℕ) (s : S),
      (drawLoop R cosF sinF w h e frac n s).1.length = n := by
  intro n
  induction n with
  | zero => intro s; rfl
  | succ m ih =>
      intro s
      rcases Option.isSome_iff_exists.mp
        (drawOne_isSome R cosF sinF w h he frac s) with ⟨c, hc⟩
      simp [drawLoop, hc, ih]

theorem artLoop_countFor {S : Type} (R : RNGImpl S) (cosF sinF : ℚ → ℚ)
    (w h : ℤ) (density : ℕ) (e : String) :
    ∀ (items : List (String × ℚ)) (s : S),
      (∀ it ∈ items, it.1 ∈ EMOTIONS) →
      ((artLoop R cosF sinF w h density items s).1.foldr
        (fun p acc => if p.1 = e then p.2.length + acc else acc) 0) =
      items.foldr
        (fun it acc => if it.1 = e then shapeCount density it.2 + acc
          else acc) 0 := by
  intro items
  induction items with
  | nil => intro s _; rfl
  | cons it rest ih =>
      intro s hall
      have hit := hall it (List.mem_cons_self it rest)
      have hrest := fun t ht => hall t (List.mem_cons_of_mem it ht)
      have hlen := drawLoop_length R cosF sinF w h hit it.2
        (shapeCount density it.2)
      simp only [artLoop, List.foldr_cons, emotionSegment]
      rw [hlen, ih _ hrest]

theorem foldr_countFor_absent {k : ℚ → ℕ} {e : String}
    (g : String → ℚ) :
    ∀ (l : List String), e ∉ l →
      ((l.map (fun x => (x, g x))).foldr
        (fun it acc => if it.1 = e then k it.2 + acc else acc) 0) = 0 := by
  intro l
  induction l with
  | nil => intro _; rfl
  | cons a t ih =>
      intro hne
      have ha : a ≠ e := fun hh => hne (hh ▸ List.mem_cons_self a t)
      have ht : e ∉ t := fun hh => hne (List.mem_cons_of_mem a hh)
      simp [ha, ih ht]

theorem foldr_countFor_present {k : ℚ → ℕ} {e : String}
    (g : String → ℚ) :
    ∀ (l : List String), l.Nodup → e ∈ l →
      ((l.map (fun x => (x, g x))).foldr
        (fun it acc => if it.1 = e then k it.2 + acc else acc) 0) =
      k (g e) := by
  intro l
  induction l with
  | nil => intro _ he; simp at he
  | cons a t ih =>
      intro hnd he
      rcases List.mem_cons.mp he with rfl | ht
      · have hout : e ∉ t := (List.nodup_cons.mp hnd).1
        simp [foldr_countFor_absent g t hout]
      · have ha : a ≠ e := by
          rintro rfl
          exact (List.nodup_cons.mp hnd).1 ht
        simp [ha, ih (List.nodup_cons.mp hnd).2 ht]

theorem shapesFor_eq {S : Type} (R : RNGImpl S) (cosF sinF : ℚ → ℚ)
    (w h : ℤ) (scores : List (String × ℚ)) (seed : ℤ) (density : ℕ)
    {e : String} (he : e ∈ EMOTIONS) :
    shapesFor R cosF sinF w h scores seed density e =
      shapeCount density (normFrac scores e) := by
  unfold shapesFor taggedSegments
  rw [artLoop_countFor R cosF sinF w h density e
    (EMOTIONS.map (fun e => (e, normFrac scores e))) (R.seedF seed)
    (by intro it hit
        rcases List.mem_map.mp hit with ⟨x, hx, rfl⟩
        exact hx)]
  exact foldr_countFor_present (normFrac scores) EMOTIONS
    (by decide) he

theorem neutralLoop_length {S : Type} (R : RNGImpl S) (w h : ℤ) :
    ∀ (n : ℕ) (s : S), (neutralLoop R w h n s).1.length = n := by
  intro n
  induction n with
  | zero => intro s; rfl
  | succ m ih => intro s; simp [neutralLoop, ih]

theorem neutralLoop_mem {S : Type} (R : RNGImpl S) (w h : ℤ) :
    ∀ (n : ℕ) (s : S), ∀ cmd ∈ (neutralLoop R w h n s).1,
      ∃ x y r c, cmd = DrawCmd.ellipse (x - r) (y - r) (x + r) (y + r)
          c 110 ∧
        (c = NEUTRAL_PALETTE.1 ∨ c = NEUTRAL_PALETTE.2.1 ∨
          c = NEUTRAL_PALETTE.2.2) := by
  intro n
  induction n with
  | zero => intro s cmd hc; simp [neutralLoop] at hc
  | succ m ih =>
      intro s cmd hc
      simp only [neutralLoop, List.mem_cons] at hc
      rcases hc with hc | hc
      · subst hc
        refine ⟨_, _, _, _, rfl, ?_⟩
        by_cases h0 : (R.randintF (R.randintF (R.randintF
            (R.randintF s 0 w).2 0 h).2 6 40).2 0 2).1 = 0
        · simp [h0]
        · by_cases h1 : (R.randintF (R.randintF (R.randintF
              (R.randintF s 0 w).2 0 h).2 6 40).2 0 2).1 = 1
          · simp [h0, h1]
          · simp [h0, h1]
      · exact ih _ cmd hc

theorem drawOne_matches {S : Type} (R : RNGImpl S) (cosF sinF : ℚ → ℚ)
    (w h : ℤ) (e : String) (frac : ℚ) (s : S) {cmd : DrawCmd}
    (hsome : (drawOne R cosF sinF w h e frac s).1 = some cmd) :
    ∃ k, shapeKindOf e = some k ∧ KindMatches cosF sinF k cmd := by
  rcases hk : shapeKindOf e with _ | k
  · simp only [drawOne] at hsome
    rw [hk] at hsome
    simp at hsome
  · refine ⟨k, rfl, ?_⟩
    simp only [drawOne] at hsome
    rw [hk] at hsome
    cases k with
    | round =>
        simp only at hsome
        exact ⟨_, _, _, _, _, (Option.some.injEq _ _ ▸ hsome).symm⟩
    | sharp =>
        simp only at hsome
        exact ⟨_, _, _, _, _, (Option.some.injEq _ _ ▸ hsome).symm⟩
    | stroke =>
        simp only at hsome
        exact ⟨_, _, _, _, _, _, _, (Option.some.injEq _ _ ▸ hsome).symm⟩

theorem drawLoop_mem {S : Type} (R : RNGImpl S) (cosF sinF : ℚ → ℚ)
    (w h : ℤ) (e : String) (frac : ℚ) :
    ∀ (n : ℕ) (s : S) {cmd : DrawCmd},
      cmd ∈ (drawLoop R cosF sinF w h e frac n s).1 →
      ∃ s', (drawOne R cosF sinF w h e frac s').1 = some cmd := by
  intro n
  induction n with
  | zero => intro s cmd hc; simp [drawLoop] at hc
  | succ m ih =>
      intro s cmd hc
      simp only [drawLoop] at hc
      rcases hr : (drawOne R cosF sinF w h e frac s).1 with _ | c
      · rw [hr] at hc
        exact ih _ hc
      · rw [hr] at hc
        rcases List.mem_cons.mp hc with rfl | hc
        · exact ⟨s, hr⟩
        · exact ih _ hc

theorem artLoop_mem {S : Type} (R : RNGImpl S) (cosF sinF : ℚ → ℚ)
    (w h : ℤ) (density : ℕ) :
    ∀ (items : List (String × ℚ)) (s : S) {e : String}
      {seg : List DrawCmd},
      (e, seg) ∈ (artLoop R cosF sinF w h density items s).1 →
      ∃ (frac : ℚ) (s' : S),
        seg = (drawLoop R cosF sinF w h e frac
          (shapeCount density frac) s').1 := by
  intro items
  induction items with
  | nil => intro s e seg hs; simp [artLoop] at hs
  | cons it rest ih =>
      intro s e seg hs
      simp only [artLoop] at hs
      rcases List.mem_cons.mp hs with heq | hs

      · rcases Prod.mk.injEq _ _ _ _ ▸ heq with ⟨rfl, rfl⟩
        exact ⟨it.2, s, rfl⟩
      · exact ih _ hs

/-- Claim C8: every shape drawn by `generate_art` has the kind fixed by
its emotion's category: joy/trust/surprise give a filled circle
(ellipse), anger/disgust give a filled triangle of 3 points at the fixed
angular offsets 0, 2.1, 4.2 from the center at distance `size`, and
sadness/fear give a randomly-directed line stroke whose width is
`max(1, size // 10)`, hence at least 1. -/
theorem claim_C8 {S : Type} (R : RNGImpl S) (cosF sinF : ℚ → ℚ)
    (w h : ℤ) (scores : List (String × ℚ)) (seed : ℤ) (density : ℕ)
    {e : String} {seg : List DrawCmd} {cmd : DrawCmd}
    (hs : (e, seg) ∈ taggedSegments R cosF sinF w h scores seed density)
    (hc : cmd ∈ seg) :
    (e ∈ (["joy", "trust", "surprise"] : List String) →
      ∃ cx cy size col a, cmd = circleCmd cx cy size col a) ∧
    (e ∈ (["anger", "disgust"] : List String) →
      ∃ cx cy size col a, cmd = triCmd cosF sinF cx cy size col a) ∧
    (e ∈ (["sadness", "fear"] : List String) →
      ∃ cx cy x2 y2 size col a, cmd = lineCmd cx cy x2 y2 size col a ∧
        (1 : ℤ) ≤ max 1 (Int.fdiv size 10)) := by
  obtain ⟨frac, s', hseg⟩ := artLoop_mem R cosF sinF w h density _ _ hs
  subst hseg
  obtain ⟨s'', hone⟩ := drawLoop_mem R cosF sinF w h e frac _ _ hc
  obtain ⟨k, hk, hm⟩ := drawOne_matches R cosF sinF w h e frac s'' hone
  refine ⟨fun hmem => ?_, fun hmem => ?_, fun hmem => ?_⟩
  · have hkr : shapeKindOf e = some ShapeKind.round := by
      rcases (by simpa using hmem : e = "joy" ∨ e = "trust" ∨
        e = "surprise") with rfl | rfl | rfl <;> rfl
    rw [hkr] at hk
    cases Option.some.injEq _ _ ▸ hk
    exact hm
  · have hkr : shapeKindOf e = some ShapeKind.sharp := by
      rcases (by simpa using hmem : e = "anger" ∨ e = "disgust")
        with rfl | rfl <;> rfl
    rw [hkr] at hk
    cases Option.some.injEq _ _ ▸ hk
    exact hm
  · have hkr : shapeKindOf e = some ShapeKind.stroke := by
      rcases (by simpa using hmem : e = "sadness" ∨ e = "fear")
        with rfl | rfl <;> rfl
    rw [hkr] at hk
    cases Option.some.injEq _ _ ▸ hk
    obtain ⟨cx, cy, x2, y2, size, col, a, hcmd⟩ := hm
    exact ⟨cx, cy, x2, y2, size, col, a, hcmd, le_max_left _ _⟩

/-! ### Claims C4–C7 -/

/-- Claim C4 (amended): when the emotion scores do not sum to zero,
`generate_art` draws its commands as the concatenation of one segment
per emotion of the 7 `EMOTIONS` — including zero-fraction emotions —
and the number of shapes drawn for each emotion `e` is exactly
`max(1, int(density × fraction))`, with `int` truncating toward zero
(not rounding), where fraction is `e`'s score divided by the sum of all
scores (0 if the sum is negative). -/
theorem claim_C4 {S : Type} (R : RNGImpl S) (cosF sinF : ℚ → ℚ)
    (g : S) (w h : ℤ) (scores : List (String × ℚ)) (seed : ℤ)
    (density blur : ℕ) {e : String} (he : e ∈ EMOTIONS)
    (hsum : dictValuesSum scores ≠ 0) :
    (generate_art R cosF sinF g w h scores seed density blur).cmds =
      (taggedSegments R cosF sinF w h scores seed density).foldr
        (fun p acc => p.2 ++ acc) [] ∧
    shapesFor R cosF sinF w h scores seed density e =
      max 1 (pyTrunc ((density : ℚ) * normFrac scores e)).toNat := by
  constructor
  · unfold generate_art
    simp [hsum]
  · rw [shapesFor_eq R cosF sinF w h scores seed density he]
    rfl

/-- Concrete instance of (amended) C4: with only joy nonzero, the
zero-fraction emotion sadness still gets `max 1 0 = 1` shape. -/
theorem claim_C4_witness :
    ("sadness" ∈ EMOTIONS ∧ dictValuesSum wScores ≠ 0) ∧
    ((generate_art trivRNG cosZ sinZ 0 100 100 wScores 42 9 1).cmds =
      (taggedSegments trivRNG cosZ sinZ 100 100 wScores 42 9).foldr
        (fun p acc => p.2 ++ acc) [] ∧
    shapesFor trivRNG cosZ sinZ 100 100 wScores 42 9 "sadness" =
      max 1 (pyTrunc ((9 : ℚ) * normFrac wScores "sadness")).toNat) := by
  have h1 : "sadness" ∈ EMOTIONS := by decide
  have h2 : dictValuesSum wScores ≠ 0 := by simp [dictValuesSum, wScores]
  exact ⟨⟨h1, h2⟩,
    claim_C4 trivRNG cosZ sinZ 0 100 100 wScores 42 9 1 h1 h2⟩

/-- Counterexample to C4 as stated: with scores joy = trust = 1 and
density 7, the fraction of sadness is 0, yet one shape is drawn for
sadness (the claim says none); and for joy (fraction 1/2,
density × fraction = 7/2) 3 shapes are drawn, while
`max(1, round(7 × 1/2)) = 4`. -/
theorem claim_C4_cex :
    normFrac cScores "sadness" = 0 ∧
    shapesFor trivRNG cosZ sinZ 100 100 cScores 42 7 "sadness" = 1 ∧
    (7 : ℚ) * normFrac cScores "joy" = 7/2 ∧
    shapesFor trivRNG cosZ sinZ 100 100 cScores 42 7 "joy" = 3 := by
  have hsum : dictValuesSum cScores = 2 := by
    norm_num [dictValuesSum, cScores]
  have hjoy : normFrac cScores "joy" = 1/2 := by
    rw [normFrac, hsum, show dictGet cScores "joy" = 1 from rfl]
    norm_num
  have hsad : normFrac cScores "sadness" = 0 := by
    rw [normFrac, hsum, show dictGet cScores "sadness" = 0 from rfl]
    norm_num
  refine ⟨hsad, ?_, ?_, ?_⟩
  · rw [shapesFor_eq trivRNG cosZ sinZ 100 100 cScores 42 7 (by decide)]
    rw [shapeCount, hsad]
    norm_num [pyTrunc]
  · rw [hjoy]; norm_num
  · rw [shapesFor_eq trivRNG cosZ sinZ 100 100 cScores 42 7 (by decide)]
    rw [shapeCount, hjoy]
    have hfl : pyTrunc (((7 : ℕ) : ℚ) * (1/2)) = 3 := by
      rw [pyTrunc, if_pos (by norm_num : (0:ℚ) ≤ ((7:ℕ):ℚ) * (1/2))]
      rw [Int.floor_eq_iff]
      norm_num
    rw [hfl]
    decide

/-- Claim C5 (amended): when the score values sum to zero,
`generate_art` takes the neutral path: it draws exactly
`max(80, density // 4)` soft circles (a count that grows with density),
each an ellipse filled with a neutral-palette color at alpha 110,
performs no emotion-weighted drawing, and applies the blur filter only
when the blur radius is positive. -/
theorem claim_C5 {S : Type} (R : RNGImpl S) (cosF sinF : ℚ → ℚ)
    (g : S) (w h : ℤ) (scores : List (String × ℚ)) (seed : ℤ)
    (density blur : ℕ) (hz : dictValuesSum scores = 0) :
    (generate_art R cosF sinF g w h scores seed density blur).cmds.length
      = max 80 (density / 4) ∧
    (∀ cmd ∈ (generate_art R cosF sinF g w h scores seed density
        blur).cmds,
      ∃ x y r c, cmd = DrawCmd.ellipse (x - r) (y - r) (x + r) (y + r)
          c 110 ∧
        (c = NEUTRAL_PALETTE.1 ∨ c = NEUTRAL_PALETTE.2.1 ∨
          c = NEUTRAL_PALETTE.2.2)) ∧
    ((generate_art R cosF sinF g w h scores seed density
        blur).blurApplied = if 0 < blur then some blur else none) := by
  refine ⟨?_, ?_, ?_⟩
  · unfold generate_art
    simp [hz, neutralLoop_length]
  · intro cmd hcmd
    unfold generate_art at hcmd
    simp [hz] at hcmd
    exact neutralLoop_mem R w h _ _ cmd hcmd
  · unfold generate_art
    simp [hz]

/-- Concrete instance of (amended) C5 at the all-zero score dict. -/
theorem claim_C5_witness :
    dictValuesSum zScores = 0 ∧
    ((generate_art trivRNG cosZ sinZ 0 100 100 zScores 42 400
        0).cmds.length = max 80 (400 / 4) ∧
    (∀ cmd ∈ (generate_art trivRNG cosZ sinZ 0 100 100 zScores 42 400
        0).cmds,
      ∃ x y r c, cmd = DrawCmd.ellipse (x - r) (y - r) (x + r) (y + r)
          c 110 ∧
        (c = NEUTRAL_PALETTE.1 ∨ c = NEUTRAL_PALETTE.2.1 ∨
          c = NEUTRAL_PALETTE.2.2)) ∧
    ((generate_art trivRNG cosZ sinZ 0 100 100 zScores 42 400
        0).blurApplied = if 0 < (0:ℕ) then some 0 else none)) := by
  have hz : dictValuesSum zScores = 0 := by simp [dictValuesSum, zScores]
  exact ⟨hz, claim_C5 trivRNG cosZ sinZ 0 100 100 zScores 42 400 0 hz⟩

/-- Counterexample to C5 as stated: the neutral-path circle count is not
independent of the other parameters — at density 400 the neutral path
draws 100 circles, at density 80 it draws 80 (all other arguments
identical). -/
theorem claim_C5_cex :
    (generate_art trivRNG cosZ sinZ 0 100 100 zScores 42 400
      1).cmds.length = 100 ∧
    (generate_art trivRNG cosZ sinZ 0 100 100 zScores 42 80
      1).cmds.length = 80 ∧
    (100 : ℕ) ≠ 80 := by
  have hz : dictValuesSum zScores = 0 := by simp [dictValuesSum, zScores]
  refine ⟨?_, ?_, by decide⟩ <;>
    · unfold generate_art
      simp [hz, neutralLoop_length]

/-- Claim C6: `generate_art` is deterministic in its arguments — its
output does not depend on the ambient state `g` of the global random
generator, because `random.seed(seed)` replaces that state before any
randomness is consumed, so identical arguments give identical output. -/
theorem claim_C6 {S : Type} (R : RNGImpl S) (cosF sinF : ℚ → ℚ)
    (g1 g2 : S) (w h : ℤ) (scores : List (String × ℚ)) (seed : ℤ)
    (density blur : ℕ) :
    generate_art R cosF sinF g1 w h scores seed density blur =
    generate_art R cosF sinF g2 w h scores seed density blur := rfl

theorem pyTrunc_mono {a b : ℚ} (hab : a ≤ b) : pyTrunc a ≤ pyTrunc b := by
  unfold pyTrunc
  by_cases ha : 0 ≤ a
  · rw [if_pos ha, if_pos (le_trans ha hab)]
    exact Int.floor_le_floor hab
  · rw [if_neg ha]
    by_cases hb : 0 ≤ b
    · rw [if_pos hb]
      calc ⌈a⌉ ≤ ((0:ℤ):ℤ) := Int.ceil_le.mpr
            (by exact_mod_cast le_of_lt (lt_of_not_le ha))
        _ ≤ ⌊b⌋ := Int.floor_nonneg.mpr hb
    · rw [if_neg hb]
      exact Int.ceil_mono hab

theorem shapeCount_mono (density : ℕ) {f1 f2 : ℚ} (hf : f2 ≤ f1) :
    shapeCount density f2 ≤ shapeCount density f1 := by
  unfold shapeCount
  have h1 : (density : ℚ) * f2 ≤ (density : ℚ) * f1 :=
    mul_le_mul_of_nonneg_left hf (by positivity)
  have h2 := pyTrunc_mono h1
  omega

/-- Claim C7: with density and all other parameters fixed, the number
of shapes `generate_art` draws for a single emotion is monotone
non-decreasing in that emotion's normalized fraction. -/
theorem claim_C7 {S : Type} (R : RNGImpl S) (cosF sinF : ℚ → ℚ)
    (w h : ℤ) (scores1 scores2 : List (String × ℚ)) (seed : ℤ)
    (density : ℕ) {e : String} (he : e ∈ EMOTIONS)
    (hf : normFrac scores2 e < normFrac scores1 e) :
    shapesFor R cosF sinF w h scores2 seed density e ≤
    shapesFor R cosF sinF w h scores1 seed density e := by
  rw [shapesFor_eq R cosF sinF w h scores1 seed density he,
    shapesFor_eq R cosF sinF w h scores2 seed density he]
  exact shapeCount_mono density (le_of_lt hf)

/-- Concrete instance of C7: joy fraction 1 versus 0. -/
theorem claim_C7_witness :
    ("joy" ∈ EMOTIONS ∧
      normFrac sScores "joy" < normFrac wScores "joy") ∧
    shapesFor trivRNG cosZ sinZ 100 100 sScores 42 400 "joy" ≤
    shapesFor trivRNG cosZ sinZ 100 100 wScores 42 400 "joy" := by
  have h1 : "joy" ∈ EMOTIONS := by decide
  have hw : normFrac wScores "joy" = 1 := by
    rw [normFrac, show dictValuesSum wScores = 1 by
        simp [dictValuesSum, wScores],
      show dictGet wScores "joy" = 1 from rfl]
    simp
  have hs : normFrac sScores "joy" = 0 := by
    rw [normFrac, show dictValuesSum sScores = 1 by
        simp [dictValuesSum, sScores],
      show dictGet sScores "joy" = 0 from rfl]
    simp
  have h2 : normFrac sScores "joy" < normFrac wScores "joy" := by
    rw [hw, hs]; exact zero_lt_one
  exact ⟨⟨h1, h2⟩,
    claim_C7 trivRNG cosZ sinZ 100 100 wScores sScores 42 400 h1 h2⟩

/-- Concrete instance of C8: the first joy shape drawn at density 1 for
`wScores` is a filled circle. -/
theorem claim_C8_witness :
    ∃ cx cy size col a, wCmd = circleCmd cx cy size col a := by
  have hnf : normFrac wScores "joy" = 1 := by
    rw [normFrac, show dictValuesSum wScores = 1 by
        simp [dictValuesSum, wScores],
      show dictGet wScores "joy" = 1 from rfl]
    simp
  have hcount : shapeCount 1 (normFrac wScores "joy") = 1 := by
    rw [shapeCount, hnf]
    simp [pyTrunc]
  have hs : ("joy", wSeg) ∈
      taggedSegments trivRNG cosZ sinZ 100 100 wScores 42 1 :=
    List.Mem.head _
  have hc : wCmd ∈ wSeg := by
    rw [wSeg, hcount]
    exact List.Mem.head _
  exact (claim_C8 trivRNG cosZ sinZ 100 100 wScores 42 1 hs hc).1
    (by decide)

theorem getD_lt_256 {l : List ℕ} (h : ∀ x ∈ l, x < 256) :
    ∀ (j : ℕ), l.getD j 0 < 256 := by
  induction l with
  | nil => intro j; simp [List.getD]
  | cons a t ih =>
      intro j
      cases j with
      | zero => simpa [List.getD] using h a (List.mem_cons_self a t)
      | succ m =>
          simpa [List.getD] using
            ih (fun x hx => h x (List.mem_cons_of_mem a hx)) m

theorem specDigest_lt_256 (t : String) : ∀ x ∈ specDigest t, x < 256 := by
  intro x hx
  rcases List.mem_map.mp hx with ⟨i, _, rfl⟩
  exact Nat.mod_lt _ (by omega)

/-- Claim C9: `hash_to_palette` returns, for every text `s` and every
`n ≥ 1`, a sequence of exactly `n` RGB triplets (channels below 256),
and two calls with the same arguments return identical sequences. -/
theorem claim_C9 (s : String) (n : ℕ) (hn : 1 ≤ n) :
    (hash_to_palette s n).length = n ∧
    (∀ c ∈ hash_to_palette s n,
      c.1 < 256 ∧ c.2.1 < 256 ∧ c.2.2 < 256) ∧
    hash_to_palette s n = hash_to_palette s n := by
  refine ⟨by simp [hash_to_palette], ?_, rfl⟩
  intro c hc
  rcases List.mem_map.mp hc with ⟨i, _, rfl⟩
  exact ⟨getD_lt_256 (specDigest_lt_256 _) _,
    getD_lt_256 (specDigest_lt_256 _) _,
    getD_lt_256 (specDigest_lt_256 _) _⟩

/-- Concrete instance of C9 at `("flowfield", 5)`. -/
theorem claim_C9_witness :
    1 ≤ 5 ∧
    ((hash_to_palette "flowfield" 5).length = 5 ∧
    (∀ c ∈ hash_to_palette "flowfield" 5,
      c.1 < 256 ∧ c.2.1 < 256 ∧ c.2.2 < 256) ∧
    hash_to_palette "flowfield" 5 = hash_to_palette "flowfield" 5) :=
  ⟨by decide, claim_C9 "flowfield" 5 (by decide)⟩

/-! ### Claim C10: totality of `pick_color` -/

/-- Claim C10: `pick_color` is total: for every emotion string and
every intensity it returns one of the three entries of the palette
selected for that emotion; an emotion label outside the 7 known labels
falls back to the neutral palette; and every intensity ≥ 0.66 (values
above 1 included) selects the third entry. -/
theorem claim_C10 (e : String) (i : ℚ) :
    (pick_color e i = (palGet e).1 ∨ pick_color e i = (palGet e).2.1 ∨
      pick_color e i = (palGet e).2.2) ∧
    (e ∉ EMOTIONS → palGet e = NEUTRAL_PALETTE) ∧
    ((0.66 : ℚ) ≤ i → pick_color e i = (palGet e).2.2) := by
  refine ⟨?_, ?_, ?_⟩
  · unfold pick_color
    by_cases h1 : i < 0.33
    · rw [if_pos h1]; left; rfl
    · rw [if_neg h1]
      by_cases h2 : i < 0.66
      · rw [if_pos h2]; right; left; rfl
      · rw [if_neg h2]; right; right; rfl
  · intro he
    simp only [EMOTIONS, List.mem_cons, List.not_mem_nil, or_false,
      not_or] at he
    obtain ⟨h1, h2, h3, h4, h5, h6, h7⟩ := he
    by_cases hn : e = "neutral"
    · subst hn; rfl
    · unfold palGet PALETTES
      simp [List.find?, beq_eq_false_iff_ne.mpr (Ne.symm h1),
        beq_eq_false_iff_ne.mpr (Ne.symm h2),
        beq_eq_false_iff_ne.mpr (Ne.symm h3),
        beq_eq_false_iff_ne.mpr (Ne.symm h4),
        beq_eq_false_iff_ne.mpr (Ne.symm h5),
        beq_eq_false_iff_ne.mpr (Ne.symm h6),
        beq_eq_false_iff_ne.mpr (Ne.symm h7),
        beq_eq_false_iff_ne.mpr (Ne.symm hn)]
  · intro h66
    unfold pick_color
    rw [if_neg (not_lt.mpr (le_trans (by norm_num) h66)),
      if_neg (not_lt.mpr h66)]

/-- Concrete instance of C10: the unknown label `calm` falls back to
the neutral palette, and intensity 7/10 selects the third entry. -/
theorem claim_C10_witness :
    palGet "calm" = NEUTRAL_PALETTE ∧
    pick_color "calm" (7/10) = (palGet "calm").2.2 :=
  ⟨(claim_C10 "calm" (7/10)).2.1 (by decide),
   (claim_C10 "calm" (7/10)).2.2 (by norm_num)⟩

end EmotionArt
